import Mathlib

/-!
Shallow embedding of the BBRv2 congestion controller
(src/quinn-proto/src/congestion/bbrv2/mod.rs).

Conventions of the embedding:
* Instants and Durations are natural numbers of microseconds; the
  saturating subtraction of Instants is the truncated Nat subtraction.
* u64 quantities are Nat; the one u128-to-u64 cast in update_bdp keeps
  its explicit truncation modulo 2^64.
* f32/f64 gain arithmetic is modelled over the rationals, with the
  float-to-u64 cast modelled as a saturating floor (ratToU64).
* The windowed bandwidth sampler and the RTT sampler are external
  collaborators (spec sections 1 and 6): their queried outputs
  (get_estimate, bytes_acked_this_window, min) enter the operations as
  explicit parameters, and a call of on_end_acks receives the two values
  the controller reads from the bandwidth estimator during that call.
* The seedable random generator is external as well; it is modelled as a
  stream of naturals consumed one draw at a time, the draw being reduced
  into the range the Rust call random_range(0..7) produces.
-/

/-- The four control states of the BBR state machine (enum Mode). -/
inductive Mode where
  | Startup
  | Drain
  | ProbeBw
  | ProbeRtt
deriving Repr, DecidableEq

/-- Construction parameters (struct BbrV2Config). -/
structure BbrV2Config where
  initial_window : Nat
deriving Repr, DecidableEq

/-- Rust cast of a nonnegative float amount to u64: truncation toward
zero, saturating at the bounds of u64 (negative values go to 0). -/
def ratToU64 (q : ℚ) : Nat :=
  min q.floor.toNat (2 ^ 64 - 1)

/-- Constant K_HIGH_GAIN. -/
def K_HIGH_GAIN : ℚ := 2885 / 1000

/-- Constant K_DERIVED_HIGH_CWNDGAIN. -/
def K_DERIVED_HIGH_CWNDGAIN : ℚ := 2

/-- The 8-entry pacing-gain table K_PACING_GAIN, as a total function on
the index: entries 0 and 1 are 1.25 and 0.75, all others are 1.0. -/
def K_PACING_GAIN : Nat → ℚ
  | 0 => 5 / 4
  | 1 => 3 / 4
  | _ => 1

/-- Constant K_MAX_INITIAL_CONGESTION_WINDOW. -/
def K_MAX_INITIAL_CONGESTION_WINDOW : Nat := 200

/-- BASE_DATAGRAM_SIZE of the congestion module. -/
def BASE_DATAGRAM_SIZE : Nat := 1200

/-- fn calculate_min_window. -/
def calculate_min_window (current_mtu : Nat) : Nat :=
  4 * current_mtu

/-- The controller state (struct BbrV2).  The external bandwidth
estimator is not part of the state (its outputs are passed into the
operations); the random generator is the rng stream. -/
structure BbrV2 where
  config : BbrV2Config
  current_mtu : Nat
  min_rtt : Nat
  bdp : Nat
  inflight_hi : Nat
  inflight_lo : Nat
  bw_hi : Nat
  bw_lo : Nat
  ecn_alpha : ℚ
  mode : Mode
  cycle_count : Nat
  last_cycle_start : Option Nat
  current_cycle_offset : Nat
  pacing_gain : ℚ
  cwnd_gain : ℚ
  acked_bytes : Nat
  lost_bytes : Nat
  sent_bytes : Nat
  delivered_bytes : Nat
  max_acked_packet_number : Nat
  max_sent_packet_number : Nat
  current_round_trip_end_packet_number : Nat
  round_count : Nat
  last_ack_time : Option Nat
  last_probe_rtt : Option Nat
  exit_probe_rtt_at : Option Nat
  cwnd : Nat
  pacing_rate : Nat
  recovery_window : Nat
  full_pipe : Bool
  round_start : Bool
  rng : List Nat
deriving Repr, DecidableEq

namespace BbrV2

/-- fn BbrV2::new. -/
def new (config : BbrV2Config) (current_mtu : Nat) (rng : List Nat) : BbrV2 where
  config := config
  current_mtu := current_mtu
  min_rtt := 1000
  bdp := 0
  inflight_hi := 2 ^ 64 - 1
  inflight_lo := 0
  bw_hi := 2 ^ 64 - 1
  bw_lo := 0
  ecn_alpha := 0
  mode := Mode.Startup
  cycle_count := 0
  last_cycle_start := none
  current_cycle_offset := 0
  pacing_gain := K_HIGH_GAIN
  cwnd_gain := K_HIGH_GAIN
  acked_bytes := 0
  lost_bytes := 0
  sent_bytes := 0
  delivered_bytes := 0
  max_acked_packet_number := 0
  max_sent_packet_number := 0
  current_round_trip_end_packet_number := 0
  round_count := 0
  last_ack_time := none
  last_probe_rtt := none
  exit_probe_rtt_at := none
  cwnd := config.initial_window
  pacing_rate := 0
  recovery_window := 0
  full_pipe := false
  round_start := false
  rng := rng

/-- fn BbrV2::enter_startup_mode. -/
def enter_startup_mode (s : BbrV2) : BbrV2 :=
  { s with mode := Mode.Startup, pacing_gain := K_HIGH_GAIN, cwnd_gain := K_HIGH_GAIN }

/-- fn BbrV2::enter_drain_mode. -/
def enter_drain_mode (s : BbrV2) : BbrV2 :=
  { s with mode := Mode.Drain, pacing_gain := 1 / K_HIGH_GAIN, cwnd_gain := K_HIGH_GAIN }

/-- fn BbrV2::enter_probe_bw_mode.  The Rust call random_range(0..7)
yields a draw in 0..=6, modelled as the head of the rng stream reduced
mod 7; a draw of at least 1 is incremented to skip index 1. -/
def enter_probe_bw_mode (s : BbrV2) (now : Nat) : BbrV2 :=
  let draw := s.rng.headD 0 % 7
  let rand_index := if 1 ≤ draw then draw + 1 else draw
  { s with mode := Mode.ProbeBw,
           cwnd_gain := K_DERIVED_HIGH_CWNDGAIN,
           last_cycle_start := some now,
           current_cycle_offset := rand_index,
           pacing_gain := K_PACING_GAIN rand_index,
           rng := s.rng.tail }

/-- fn BbrV2::enter_probe_rtt_mode. -/
def enter_probe_rtt_mode (s : BbrV2) (now : Nat) : BbrV2 :=
  { s with mode := Mode.ProbeRtt,
           pacing_gain := 1,
           exit_probe_rtt_at := none,
           last_probe_rtt := some now }

/-- fn BbrV2::update_bdp; bw is the queried get_estimate output. -/
def update_bdp (s : BbrV2) (bw : Nat) : BbrV2 :=
  if 0 < bw ∧ s.min_rtt ≠ 0 then
    { s with bdp := (bw * s.min_rtt / 1000000) % 2 ^ 64 }
  else s

/-- fn BbrV2::update_pacing_rate; bw is the queried get_estimate output. -/
def update_pacing_rate (s : BbrV2) (bw : Nat) : BbrV2 :=
  if bw = 0 then s
  else { s with pacing_rate := max (ratToU64 ((bw : ℚ) * s.pacing_gain)) (s.current_mtu * 100) }

/-- fn BbrV2::update_congestion_window. -/
def update_congestion_window (s : BbrV2) (bw bytes_acked : Nat) : BbrV2 :=
  let s := s.update_bdp bw
  let target_cwnd :=
    if 0 < s.bdp then
      max (max (ratToU64 ((s.bdp : ℚ) * s.cwnd_gain)) s.config.initial_window)
        (calculate_min_window s.current_mtu)
    else s.config.initial_window
  let bounded_cwnd := max (min target_cwnd s.inflight_hi) s.inflight_lo
  let c :=
    match s.mode with
    | Mode.Startup =>
        if !s.full_pipe then s.cwnd + bytes_acked
        else min bounded_cwnd (s.cwnd + bytes_acked)
    | Mode.Drain => bounded_cwnd
    | Mode.ProbeBw => min bounded_cwnd (s.cwnd + bytes_acked)
    | Mode.ProbeRtt => min bounded_cwnd (s.cwnd + bytes_acked)
  { s with cwnd := max c (calculate_min_window s.current_mtu) }

/-- fn BbrV2::check_full_pipe. -/
def check_full_pipe (s : BbrV2) : BbrV2 :=
  if s.full_pipe then s
  else if 0 < s.bdp ∧ ratToU64 ((s.bdp : ℚ) * (4 / 5)) < s.delivered_bytes then
    { s with full_pipe := true }
  else s

/-- fn BbrV2::update_cycle_phase. -/
def update_cycle_phase (s : BbrV2) (now : Nat) (_inflight : Nat) : BbrV2 :=
  if s.mode ≠ Mode.ProbeBw then s
  else
    let should_advance :=
      match s.last_cycle_start with
      | some last => decide (s.min_rtt < now - last)
      | none => false
    if should_advance then
      { s with current_cycle_offset := (s.current_cycle_offset + 1) % 8,
               last_cycle_start := some now,
               pacing_gain := K_PACING_GAIN ((s.current_cycle_offset + 1) % 8),
               cycle_count := s.cycle_count + 1 }
    else s

/-- fn BbrV2::maybe_probe_rtt. -/
def maybe_probe_rtt (s : BbrV2) (now : Nat) : BbrV2 :=
  let should_probe :=
    match s.last_probe_rtt with
    | some last => decide (10000000 < now - last)
    | none => true
  if should_probe && decide (s.mode ≠ Mode.ProbeRtt) then s.enter_probe_rtt_mode now
  else s

/-- fn BbrV2::update_recovery_window. -/
def update_recovery_window (s : BbrV2) (_bytes_acked bytes_lost : Nat) : BbrV2 :=
  let rw := if s.recovery_window = 0
    then max s.cwnd (calculate_min_window s.current_mtu)
    else s.recovery_window
  let rw := if 0 < bytes_lost then rw - bytes_lost else rw
  { s with recovery_window := max (max rw s.cwnd) (calculate_min_window s.current_mtu) }

/-- fn Controller::on_sent for BbrV2 (the forwarded estimator sample is
external state). -/
def on_sent (s : BbrV2) (_now bytes last_packet_number : Nat) : BbrV2 :=
  { s with max_sent_packet_number := last_packet_number,
           sent_bytes := s.sent_bytes + bytes }

/-- fn Controller::on_ack for BbrV2; rtt_min is the queried minimum of
the external RttEstimator. -/
def on_ack (s : BbrV2) (now _sent bytes : Nat) (_app_limited : Bool) (rtt_min : Nat) : BbrV2 :=
  let s := { s with acked_bytes := s.acked_bytes + bytes,
                    delivered_bytes := s.delivered_bytes + bytes,
                    last_ack_time := some now }
  if rtt_min < s.min_rtt ∨ s.min_rtt = 0 then { s with min_rtt := rtt_min } else s

/-- Lines 334 to 377 of fn Controller::on_end_acks: the largest-acked
bookkeeping, the round-start detection and the mode-specific state
machine transition of the batch (everything before maybe_probe_rtt). -/
def on_end_acks_transitions (s : BbrV2) (now inflight : Nat) (largest : Option Nat) : BbrV2 :=
  let s :=
    match largest with
    | some l => { s with max_acked_packet_number := l }
    | none => s
  let s :=
    if s.current_round_trip_end_packet_number < s.max_acked_packet_number then
      { s with round_start := true,
               current_round_trip_end_packet_number := s.max_sent_packet_number,
               round_count := s.round_count + 1 }
    else { s with round_start := false }
  match s.mode with
  | Mode.Startup =>
      let s := s.check_full_pipe
      if s.full_pipe && s.round_start then s.enter_drain_mode else s
  | Mode.Drain =>
      if inflight ≤ s.bdp then s.enter_probe_bw_mode now else s
  | Mode.ProbeBw => s.update_cycle_phase now inflight

  | Mode.ProbeRtt =>
      match s.exit_probe_rtt_at with
      | none =>
          if inflight < calculate_min_window s.current_mtu + s.current_mtu then
            { s with exit_probe_rtt_at := some (now + 200000) }
          else s
      | some t =>
          if t ≤ now then
            (if s.full_pipe then s.enter_probe_bw_mode now else s.enter_startup_mode)
          else s

/-- fn Controller::on_end_acks for BbrV2.  The two values the controller
reads from the external bandwidth estimator during the call are passed
in: bytes_acked_this_window (read before end_acks) and bw (the estimate
get_estimate returns afterwards, read by update_pacing_rate and by
update_bdp inside update_congestion_window). -/
def on_end_acks (s : BbrV2) (now inflight : Nat) (_app_limited : Bool)
    (largest : Option Nat) (bytes_acked_this_window bw : Nat) : BbrV2 :=
  let s1 := s.on_end_acks_transitions now inflight largest
  let s2 := s1.maybe_probe_rtt now
  let s3 := s2.update_pacing_rate bw
  let s4 := s3.update_congestion_window bw bytes_acked_this_window
  { s4 with acked_bytes := 0, lost_bytes := 0 }

/-- fn Controller::on_congestion_event for BbrV2. -/
def on_congestion_event (s : BbrV2) (_now _sent : Nat) (_is_persistent_congestion : Bool)
    (lost_bytes : Nat) : BbrV2 :=
  let s := { s with lost_bytes := s.lost_bytes + lost_bytes }
  s.update_recovery_window s.acked_bytes lost_bytes

/-- fn Controller::on_mtu_update for BbrV2. -/
def on_mtu_update (s : BbrV2) (new_mtu : Nat) : BbrV2 :=
  { s with current_mtu := new_mtu,
           cwnd := max s.cwnd (calculate_min_window new_mtu) }

/-- fn Controller::window for BbrV2. -/
def window (s : BbrV2) : Nat :=
  if s.mode = Mode.ProbeRtt then calculate_min_window s.current_mtu
  else if 0 < s.recovery_window then min s.cwnd s.recovery_window
  else s.cwnd

end BbrV2

/-- The states reachable by constructing a controller and applying any
sequence of the public operations with arbitrary arguments (the external
estimator and RNG outputs are arbitrary as well, an over-approximation
of the closed system). -/
inductive Reachable : BbrV2 → Prop where
  | mk_new : ∀ config current_mtu rng, Reachable (BbrV2.new config current_mtu rng)
  | sent : ∀ s now bytes pn, Reachable s → Reachable (s.on_sent now bytes pn)
  | ack : ∀ s now sent bytes al rtt_min, Reachable s →
      Reachable (s.on_ack now sent bytes al rtt_min)
  | end_acks : ∀ s now inflight al largest ba bw, Reachable s →
      Reachable (s.on_end_acks now inflight al largest ba bw)
  | congestion : ∀ s now sent pc lost, Reachable s →
      Reachable (s.on_congestion_event now sent pc lost)
  | mtu : ∀ s m, Reachable s → Reachable (s.on_mtu_update m)

/-- Reachability restricted to executions whose construction MTU and
configured initial window are positive and whose every MTU update is
positive. -/
inductive ReachablePos : BbrV2 → Prop where
  | mk_new : ∀ config current_mtu rng, 1 ≤ current_mtu →
      1 ≤ config.initial_window → ReachablePos (BbrV2.new config current_mtu rng)
  | sent : ∀ s now bytes pn, ReachablePos s → ReachablePos (s.on_sent now bytes pn)
  | ack : ∀ s now sent bytes al rtt_min, ReachablePos s →
      ReachablePos (s.on_ack now sent bytes al rtt_min)
  | end_acks : ∀ s now inflight al largest ba bw, ReachablePos s →
      ReachablePos (s.on_end_acks now inflight al largest ba bw)
  | congestion : ∀ s now sent pc lost, ReachablePos s →
      ReachablePos (s.on_congestion_event now sent pc lost)
  | mtu : ∀ s m, 1 ≤ m → ReachablePos s → ReachablePos (s.on_mtu_update m)

/-- Concrete state for claim C1: the intermediate state of the first
on_end_acks call on a controller whose configured initial window is 0,
right before update_congestion_window computes the new window. -/
def c1mid : BbrV2 :=
  ((((BbrV2.new ⟨0⟩ 1500 []).on_end_acks_transitions 0 0 none).maybe_probe_rtt
      0).update_pacing_rate 0).update_bdp 0

/-- Concrete state for claim C2: a controller driven into ProbeRtt by
its first on_end_acks call and then given an MTU update of 0. -/
def c2s : BbrV2 :=
  ((BbrV2.new ⟨6000⟩ 1500 []).on_end_acks 0 0 false none 0 0).on_mtu_update 0

/-- Concrete state for claim C3: a fresh controller whose last RTT probe
timestamp is instant 0. -/
def c3s : BbrV2 :=
  { BbrV2.new ⟨6000⟩ 1500 [] with last_probe_rtt := some 0 }

/-- Concrete state for claim C6: a ProbeRtt controller with a small
stored cwnd and an active recovery window. -/
def c6s : BbrV2 :=
  { BbrV2.new ⟨6000⟩ 1500 [] with mode := Mode.ProbeRtt, cwnd := 2, recovery_window := 5 }

/-- Concrete state for claim C7: a ProbeBw controller whose last cycle
advance happened at instant 0 (its min_rtt is the initial 1000 us). -/
def c7s : BbrV2 :=
  { BbrV2.new ⟨6000⟩ 1500 [] with mode := Mode.ProbeBw, last_cycle_start := some 0 }

/-- Concrete state for claim C8: a fresh controller with MTU 1500. -/
def c8s : BbrV2 :=
  BbrV2.new ⟨6000⟩ 1500 []

namespace BbrV2

@[simp] theorem update_bdp_current_mtu (s : BbrV2) (bw : Nat) :
    (s.update_bdp bw).current_mtu = s.current_mtu := by
  unfold update_bdp; split <;> rfl

@[simp] theorem update_bdp_mode (s : BbrV2) (bw : Nat) :
    (s.update_bdp bw).mode = s.mode := by
  unfold update_bdp; split <;> rfl

@[simp] theorem update_bdp_cwnd (s : BbrV2) (bw : Nat) :
    (s.update_bdp bw).cwnd = s.cwnd := by
  unfold update_bdp; split <;> rfl

@[simp] theorem update_bdp_pacing_gain (s : BbrV2) (bw : Nat) :
    (s.update_bdp bw).pacing_gain = s.pacing_gain := by
  unfold update_bdp; split <;> rfl

@[simp] theorem update_bdp_exit_probe_rtt_at (s : BbrV2) (bw : Nat) :
    (s.update_bdp bw).exit_probe_rtt_at = s.exit_probe_rtt_at := by
  unfold update_bdp; split <;> rfl

@[simp] theorem update_bdp_last_probe_rtt (s : BbrV2) (bw : Nat) :
    (s.update_bdp bw).last_probe_rtt = s.last_probe_rtt := by
  unfold update_bdp; split <;> rfl

@[simp] theorem update_bdp_delivered_bytes (s : BbrV2) (bw : Nat) :
    (s.update_bdp bw).delivered_bytes = s.delivered_bytes := by
  unfold update_bdp; split <;> rfl

@[simp] theorem update_pacing_rate_current_mtu (s : BbrV2) (bw : Nat) :
    (s.update_pacing_rate bw).current_mtu = s.current_mtu := by
  unfold update_pacing_rate; split <;> rfl

@[simp] theorem update_pacing_rate_mode (s : BbrV2) (bw : Nat) :
    (s.update_pacing_rate bw).mode = s.mode := by
  unfold update_pacing_rate; split <;> rfl

@[simp] theorem update_pacing_rate_cwnd (s : BbrV2) (bw : Nat) :
    (s.update_pacing_rate bw).cwnd = s.cwnd := by
  unfold update_pacing_rate; split <;> rfl

@[simp] theorem update_pacing_rate_pacing_gain (s : BbrV2) (bw : Nat) :
    (s.update_pacing_rate bw).pacing_gain = s.pacing_gain := by
  unfold update_pacing_rate; split <;> rfl

@[simp] theorem update_pacing_rate_exit_probe_rtt_at (s : BbrV2) (bw : Nat) :
    (s.update_pacing_rate bw).exit_probe_rtt_at = s.exit_probe_rtt_at := by
  unfold update_pacing_rate; split <;> rfl

@[simp] theorem update_pacing_rate_last_probe_rtt (s : BbrV2) (bw : Nat) :
    (s.update_pacing_rate bw).last_probe_rtt = s.last_probe_rtt := by
  unfold update_pacing_rate; split <;> rfl

@[simp] theorem update_pacing_rate_delivered_bytes (s : BbrV2) (bw : Nat) :
    (s.update_pacing_rate bw).delivered_bytes = s.delivered_bytes := by
  unfold update_pacing_rate; split <;> rfl

@[simp] theorem update_congestion_window_current_mtu (s : BbrV2) (bw ba : Nat) :
    (s.update_congestion_window bw ba).current_mtu = s.current_mtu := by
  unfold update_congestion_window; simp

@[simp] theorem update_congestion_window_mode (s : BbrV2) (bw ba : Nat) :
    (s.update_congestion_window bw ba).mode = s.mode := by
  unfold update_congestion_window; simp

@[simp] theorem update_congestion_window_pacing_gain (s : BbrV2) (bw ba : Nat) :
    (s.update_congestion_window bw ba).pacing_gain = s.pacing_gain := by
  unfold update_congestion_window; simp

@[simp] theorem update_congestion_window_exit_probe_rtt_at (s : BbrV2) (bw ba : Nat) :
    (s.update_congestion_window bw ba).exit_probe_rtt_at = s.exit_probe_rtt_at := by
  unfold update_congestion_window; simp

@[simp] theorem update_congestion_window_last_probe_rtt (s : BbrV2) (bw ba : Nat) :
    (s.update_congestion_window bw ba).last_probe_rtt = s.last_probe_rtt := by
  unfold update_congestion_window; simp

@[simp] theorem update_congestion_window_delivered_bytes (s : BbrV2) (bw ba : Nat) :
    (s.update_congestion_window bw ba).delivered_bytes = s.delivered_bytes := by
  unfold update_congestion_window; simp

theorem update_congestion_window_cwnd_floor (s : BbrV2) (bw ba : Nat) :
    calculate_min_window s.current_mtu ≤ (s.update_congestion_window bw ba).cwnd := by
  unfold update_congestion_window
  dsimp only
  rw [update_bdp_current_mtu]
  exact le_max_right _ _

@[simp] theorem check_full_pipe_current_mtu (s : BbrV2) :
    s.check_full_pipe.current_mtu = s.current_mtu := by
  unfold check_full_pipe; repeat' split
  all_goals rfl

@[simp] theorem check_full_pipe_cwnd (s : BbrV2) :
    s.check_full_pipe.cwnd = s.cwnd := by
  unfold check_full_pipe; repeat' split
  all_goals rfl

@[simp] theorem check_full_pipe_delivered_bytes (s : BbrV2) :
    s.check_full_pipe.delivered_bytes = s.delivered_bytes := by
  unfold check_full_pipe; repeat' split
  all_goals rfl

@[simp] theorem check_full_pipe_last_probe_rtt (s : BbrV2) :
    s.check_full_pipe.last_probe_rtt = s.last_probe_rtt := by
  unfold check_full_pipe; repeat' split
  all_goals rfl

@[simp] theorem update_cycle_phase_current_mtu (s : BbrV2) (now inflight : Nat) :
    (s.update_cycle_phase now inflight).current_mtu = s.current_mtu := by
  unfold update_cycle_phase; dsimp only; repeat' split
  all_goals rfl

@[simp] theorem update_cycle_phase_cwnd (s : BbrV2) (now inflight : Nat) :
    (s.update_cycle_phase now inflight).cwnd = s.cwnd := by
  unfold update_cycle_phase; dsimp only; repeat' split
  all_goals rfl

@[simp] theorem update_cycle_phase_delivered_bytes (s : BbrV2) (now inflight : Nat) :
    (s.update_cycle_phase now inflight).delivered_bytes = s.delivered_bytes := by
  unfold update_cycle_phase; dsimp only; repeat' split
  all_goals rfl

@[simp] theorem update_cycle_phase_last_probe_rtt (s : BbrV2) (now inflight : Nat) :
    (s.update_cycle_phase now inflight).last_probe_rtt = s.last_probe_rtt := by
  unfold update_cycle_phase; dsimp only; repeat' split
  all_goals rfl

@[simp] theorem maybe_probe_rtt_current_mtu (s : BbrV2) (now : Nat) :
    (s.maybe_probe_rtt now).current_mtu = s.current_mtu := by
  unfold maybe_probe_rtt; dsimp only; repeat' split
  all_goals rfl

@[simp] theorem maybe_probe_rtt_cwnd (s : BbrV2) (now : Nat) :
    (s.maybe_probe_rtt now).cwnd = s.cwnd := by
  unfold maybe_probe_rtt; dsimp only; repeat' split
  all_goals rfl

@[simp] theorem maybe_probe_rtt_delivered_bytes (s : BbrV2) (now : Nat) :
    (s.maybe_probe_rtt now).delivered_bytes = s.delivered_bytes := by
  unfold maybe_probe_rtt; dsimp only; repeat' split
  all_goals rfl

@[simp] theorem on_end_acks_transitions_current_mtu (s : BbrV2) (now inflight : Nat)
    (largest : Option Nat) :
    (s.on_end_acks_transitions now inflight largest).current_mtu = s.current_mtu := by
  unfold on_end_acks_transitions
  cases largest <;> (dsimp only; repeat' split) <;>
    simp [enter_drain_mode, enter_probe_bw_mode, enter_startup_mode]

@[simp] theorem on_end_acks_transitions_delivered_bytes (s : BbrV2) (now inflight : Nat)
    (largest : Option Nat) :
    (s.on_end_acks_transitions now inflight largest).delivered_bytes = s.delivered_bytes := by
  unfold on_end_acks_transitions
  cases largest <;> (dsimp only; repeat' split) <;>
    simp [enter_drain_mode, enter_probe_bw_mode, enter_startup_mode]

@[simp] theorem on_end_acks_transitions_last_probe_rtt (s : BbrV2) (now inflight : Nat)
    (largest : Option Nat) :
    (s.on_end_acks_transitions now inflight largest).last_probe_rtt = s.last_probe_rtt := by
  unfold on_end_acks_transitions
  cases largest <;> (dsimp only; repeat' split) <;>
    simp [enter_drain_mode, enter_probe_bw_mode, enter_startup_mode]

@[simp] theorem on_end_acks_current_mtu (s : BbrV2) (now inflight : Nat) (al : Bool)
    (largest : Option Nat) (ba bw : Nat) :
    (s.on_end_acks now inflight al largest ba bw).current_mtu = s.current_mtu := by
  unfold on_end_acks; simp

@[simp] theorem on_end_acks_delivered_bytes (s : BbrV2) (now inflight : Nat) (al : Bool)
    (largest : Option Nat) (ba bw : Nat) :
    (s.on_end_acks now inflight al largest ba bw).delivered_bytes = s.delivered_bytes := by
  unfold on_end_acks; simp

theorem on_end_acks_cwnd_floor (s : BbrV2) (now inflight : Nat) (al : Bool)
    (largest : Option Nat) (ba bw : Nat) :
    calculate_min_window s.current_mtu ≤ (s.on_end_acks now inflight al largest ba bw).cwnd := by
  unfold on_end_acks
  dsimp only
  have h := update_congestion_window_cwnd_floor
    (((s.on_end_acks_transitions now inflight largest).maybe_probe_rtt now).update_pacing_rate bw)
    bw ba
  simpa using h

@[simp] theorem on_ack_current_mtu (s : BbrV2) (now sent bytes : Nat) (al : Bool)
    (rtt_min : Nat) : (s.on_ack now sent bytes al rtt_min).current_mtu = s.current_mtu := by
  unfold on_ack; dsimp only; split <;> rfl

@[simp] theorem on_ack_cwnd (s : BbrV2) (now sent bytes : Nat) (al : Bool)
    (rtt_min : Nat) : (s.on_ack now sent bytes al rtt_min).cwnd = s.cwnd := by
  unfold on_ack; dsimp only; split <;> rfl

@[simp] theorem on_ack_delivered_bytes (s : BbrV2) (now sent bytes : Nat) (al : Bool)
    (rtt_min : Nat) :
    (s.on_ack now sent bytes al rtt_min).delivered_bytes = s.delivered_bytes + bytes := by
  unfold on_ack; dsimp only; split <;> rfl

@[simp] theorem on_congestion_event_current_mtu (s : BbrV2) (now sent : Nat) (pc : Bool)
    (lost : Nat) : (s.on_congestion_event now sent pc lost).current_mtu = s.current_mtu := by
  unfold on_congestion_event update_recovery_window; rfl

@[simp] theorem on_congestion_event_cwnd (s : BbrV2) (now sent : Nat) (pc : Bool)
    (lost : Nat) : (s.on_congestion_event now sent pc lost).cwnd = s.cwnd := by
  unfold on_congestion_event update_recovery_window; rfl

@[simp] theorem on_congestion_event_delivered_bytes (s : BbrV2) (now sent : Nat) (pc : Bool)
    (lost : Nat) :
    (s.on_congestion_event now sent pc lost).delivered_bytes = s.delivered_bytes := by
  unfold on_congestion_event update_recovery_window; rfl

end BbrV2

/-- States reachable under positive MTUs and a positive initial window
keep a positive MTU and a positive congestion window. -/
theorem reachable_pos_inv (s : BbrV2) (h : ReachablePos s) :
    1 ≤ s.current_mtu ∧ 1 ≤ s.cwnd := by
  induction h with
  | mk_new config current_mtu rng h1 h2 => exact ⟨h1, h2⟩
  | sent s now bytes pn _ ih => simpa using ih
  | ack s now sent bytes al rtt_min _ ih => simpa using ih
  | end_acks s now inflight al largest ba bw _ ih =>
      obtain ⟨h1, _⟩ := ih
      refine ⟨by simpa using h1, ?_⟩
      have h2 := BbrV2.on_end_acks_cwnd_floor s now inflight al largest ba bw
      unfold calculate_min_window at h2
      omega
  | congestion s now sent pc lost _ ih => simpa using ih
  | mtu s m hm _ ih =>
      obtain ⟨h1, h2⟩ := ih
      unfold BbrV2.on_mtu_update
      refine ⟨hm, ?_⟩
      dsimp only
      omega

/-- The mode-transition step of the first batch of a fresh controller
stays in Startup (the full-pipe flag cannot latch with a zero BDP) and
leaves the last-probe timestamp unset. -/
theorem on_end_acks_transitions_of_new (cfg : BbrV2Config) (mtu : Nat) (rng : List Nat)
    (now inflight : Nat) (largest : Option Nat) :
    (BbrV2.on_end_acks_transitions (BbrV2.new cfg mtu rng) now inflight largest).mode
      = Mode.Startup ∧
    (BbrV2.on_end_acks_transitions (BbrV2.new cfg mtu rng) now inflight largest).last_probe_rtt
      = none := by
  unfold BbrV2.on_end_acks_transitions
  cases largest with
  | none => simp [BbrV2.new, BbrV2.check_full_pipe]
  | some l =>
      by_cases h : 0 < l <;> simp [BbrV2.new, BbrV2.check_full_pipe, h]

/-- Claim C1 (amended): on every on_end_acks call the new cwnd follows
the mode-specific rule evaluated on the post-transition state — with
target max(bdp gain product, initial window, min window) when the bdp is
positive and initial window otherwise, bounded by the inflight bounds;
additive uncapped growth in Startup before full pipe, the bounded target
in Drain, and min(bounded target, cwnd + bytes acked) otherwise — and
the result is finally floored at the minimum window 4 x current_mtu. -/
theorem bbr_c1_cwnd_rule (s : BbrV2) (now inflight : Nat) (al : Bool) (largest : Option Nat)
    (ba bw : Nat) :
    (s.on_end_acks now inflight al largest ba bw).cwnd =
      (let t := ((((s.on_end_acks_transitions now inflight largest).maybe_probe_rtt
          now).update_pacing_rate bw).update_bdp bw)
       let target_cwnd :=
         if 0 < t.bdp then
           max (max (ratToU64 ((t.bdp : ℚ) * t.cwnd_gain)) t.config.initial_window)
             (calculate_min_window t.current_mtu)
         else t.config.initial_window
       let bounded_cwnd := max (min target_cwnd t.inflight_hi) t.inflight_lo
       max
         (match t.mode with
          | Mode.Startup =>
              if !t.full_pipe then t.cwnd + ba
              else min bounded_cwnd (t.cwnd + ba)
          | Mode.Drain => bounded_cwnd
          | Mode.ProbeBw => min bounded_cwnd (t.cwnd + ba)
          | Mode.ProbeRtt => min bounded_cwnd (t.cwnd + ba))
         (calculate_min_window t.current_mtu)) := rfl

/-- Claim C1 counterexample: on the first on_end_acks call of a
controller configured with initial window 0, the post-transition mode is
ProbeRtt with zero bdp, so the rule of the claim yields
min(bounded target, cwnd + bytes acked) = 0, yet the call leaves
cwnd = 6000 = 4 x 1500: the claim omits the final minimum-window
floor. -/
theorem bbr_c1_cex :
    c1mid.mode = Mode.ProbeRtt ∧ c1mid.bdp = 0 ∧
    min (max (min c1mid.config.initial_window c1mid.inflight_hi) c1mid.inflight_lo)
      (c1mid.cwnd + 0) = 0 ∧
    ((BbrV2.new ⟨0⟩ 1500 []).on_end_acks 0 0 false none 0 0).cwnd = 6000 :=
  ⟨by decide, by decide, by decide, by decide⟩

/-- Claim C2 (amended): in every state reachable with a positive
construction MTU, a positive configured initial window and positive MTU
updates, window() is at least 1; and immediately after any on_end_acks
call (on any state at all), cwnd is at least 4 x current_mtu. -/
theorem bbr_c2_window_floor :
    (∀ s, ReachablePos s → 1 ≤ s.window) ∧
    (∀ (s : BbrV2) (now inflight : Nat) (al : Bool) (largest : Option Nat) (ba bw : Nat),
      4 * (s.on_end_acks now inflight al largest ba bw).current_mtu ≤
        (s.on_end_acks now inflight al largest ba bw).cwnd) := by
  constructor
  · intro s h
    obtain ⟨h1, h2⟩ := reachable_pos_inv s h
    unfold BbrV2.window
    split
    · unfold calculate_min_window; omega
    · split
      · omega
      · omega
  · intro s now inflight al largest ba bw
    have h := BbrV2.on_end_acks_cwnd_floor s now inflight al largest ba bw
    unfold calculate_min_window at h
    rw [BbrV2.on_end_acks_current_mtu]
    exact h

/-- Claim C2 counterexample: with initial window 0 the freshly built
controller is reachable and its window() is 0 < 1; and a controller
driven into ProbeRtt by its first batch and then given an MTU update of
0 is reachable with window() = 0 as well, so the claim fails for fully
arbitrary construction parameters and arguments. -/
theorem bbr_c2_cex :
    Reachable (BbrV2.new ⟨0⟩ 1500 []) ∧ (BbrV2.new ⟨0⟩ 1500 []).window = 0 ∧
    Reachable c2s ∧ c2s.window = 0 :=
  ⟨Reachable.mk_new _ _ _, by decide,
   Reachable.mtu _ _ (Reachable.end_acks _ _ _ _ _ _ _ (Reachable.mk_new _ _ _)),
   by decide⟩

/-- Claim C3: whenever more than 10 seconds have elapsed since the last
recorded ProbeRtt entry and the mode after the mode-specific transition
of the batch is not ProbeRtt, the on_end_acks call ends in ProbeRtt with
pacing gain 1, a cleared ProbeRtt exit deadline and the last-probe
timestamp set to now; the forced entry is evaluated after the
mode-specific transition and thus overrides it. -/
theorem bbr_c3_forced_probe_rtt (s : BbrV2) (now inflight : Nat) (al : Bool)
    (largest : Option Nat) (ba bw : Nat) (t : Nat)
    (h1 : s.last_probe_rtt = some t) (h2 : 10000000 < now - t)
    (h3 : (s.on_end_acks_transitions now inflight largest).mode ≠ Mode.ProbeRtt) :
    (s.on_end_acks now inflight al largest ba bw).mode = Mode.ProbeRtt ∧
    (s.on_end_acks now inflight al largest ba bw).pacing_gain = 1 ∧
    (s.on_end_acks now inflight al largest ba bw).exit_probe_rtt_at = none ∧
    (s.on_end_acks now inflight al largest ba bw).last_probe_rtt = some now := by
  unfold BbrV2.on_end_acks
  have hl : (s.on_end_acks_transitions now inflight largest).last_probe_rtt = some t := by
    rw [BbrV2.on_end_acks_transitions_last_probe_rtt, h1]
  have hm : (s.on_end_acks_transitions now inflight largest).maybe_probe_rtt now
      = (s.on_end_acks_transitions now inflight largest).enter_probe_rtt_mode now := by
    unfold BbrV2.maybe_probe_rtt
    rw [hl]
    simp [h2, h3]
  dsimp only
  rw [hm]
  simp [BbrV2.enter_probe_rtt_mode]

/-- Claim C3 witness: a controller whose last RTT probe was at instant 0
and whose batch at instant 20000000 stays in Startup is forced into
ProbeRtt by the end of that batch. -/
theorem bbr_c3_witness :
    (c3s.on_end_acks 20000000 0 false none 0 0).mode = Mode.ProbeRtt ∧
    (c3s.on_end_acks 20000000 0 false none 0 0).pacing_gain = 1 ∧
    (c3s.on_end_acks 20000000 0 false none 0 0).exit_probe_rtt_at = none ∧
    (c3s.on_end_acks 20000000 0 false none 0 0).last_probe_rtt = some 20000000 :=
  bbr_c3_forced_probe_rtt c3s 20000000 0 false none 0 0 0 rfl (by decide) (by decide)

/-- Claim C4: on every freshly constructed controller, whatever the
arguments, the first on_end_acks call ends in mode ProbeRtt: no ProbeRtt
entry was ever recorded, so the periodic probe check fires on the first
batch and overrides the Startup transition logic. -/
theorem bbr_c4_first_batch_probe_rtt (cfg : BbrV2Config) (mtu : Nat) (rng : List Nat)
    (now inflight : Nat) (al : Bool) (largest : Option Nat) (ba bw : Nat) :
    ((BbrV2.new cfg mtu rng).on_end_acks now inflight al largest ba bw).mode
      = Mode.ProbeRtt := by
  unfold BbrV2.on_end_acks
  dsimp only
  rw [BbrV2.update_congestion_window_mode, BbrV2.update_pacing_rate_mode]
  obtain ⟨h1, h2⟩ := on_end_acks_transitions_of_new cfg mtu rng now inflight largest
  unfold BbrV2.maybe_probe_rtt
  rw [h2]
  simp [h1, BbrV2.enter_probe_rtt_mode]

/-- Claim C5: every on_congestion_event call leaves the recovery window
equal to the claimed formula — the window seeded at
max(cwnd, 4 x current_mtu) when it was 0, lost bytes subtracted with
saturation, and the result re-floored at max(cwnd, 4 x current_mtu) —
and in particular never below that floor on return. -/
theorem bbr_c5_recovery_window (s : BbrV2) (now sent : Nat) (pc : Bool) (lost : Nat) :
    (s.on_congestion_event now sent pc lost).recovery_window =
      max (max ((if s.recovery_window = 0 then max s.cwnd (4 * s.current_mtu)
                 else s.recovery_window) - lost) s.cwnd) (4 * s.current_mtu) ∧
    max s.cwnd (4 * s.current_mtu) ≤ (s.on_congestion_event now sent pc lost).recovery_window := by
  unfold BbrV2.on_congestion_event BbrV2.update_recovery_window calculate_min_window
  dsimp only
  constructor
  · split_ifs <;> omega
  · split_ifs <;> omega

/-- Claim C6: whenever the mode is ProbeRtt, window() is exactly
4 x current_mtu, regardless of the stored cwnd and of any active
recovery window (proved for every state, which covers every reachable
state). -/
theorem bbr_c6_probe_rtt_window (s : BbrV2) (h : s.mode = Mode.ProbeRtt) :
    s.window = 4 * s.current_mtu := by
  unfold BbrV2.window
  simp [h, calculate_min_window]

/-- Claim C6 witness: a ProbeRtt state with stored cwnd 2 and an active
recovery window 5 still reports window() = 4 x 1500. -/
theorem bbr_c6_witness : c6s.window = 4 * c6s.current_mtu :=
  bbr_c6_probe_rtt_window c6s rfl

/-- Claim C7 (amended): in ProbeBw with a recorded last cycle start,
update_cycle_phase advances the pacing-gain cycle exactly when the
interval since the last advance strictly exceeds min_rtt: the offset
increments modulo 8, the pacing gain is read from the 8-entry table at
the new offset, the last cycle start becomes now and the cycle count
increments; nothing changes when the interval does not exceed
min_rtt. -/
theorem bbr_c7_cycle_advance (s : BbrV2) (now inflight last : Nat)
    (h1 : s.mode = Mode.ProbeBw) (h2 : s.last_cycle_start = some last) :
    (s.min_rtt < now - last →
      s.update_cycle_phase now inflight =
        { s with current_cycle_offset := (s.current_cycle_offset + 1) % 8,
                 last_cycle_start := some now,
                 pacing_gain := K_PACING_GAIN ((s.current_cycle_offset + 1) % 8),
                 cycle_count := s.cycle_count + 1 }) ∧
    (¬ s.min_rtt < now - last → s.update_cycle_phase now inflight = s) := by
  unfold BbrV2.update_cycle_phase
  rw [h2]
  by_cases hc : s.min_rtt < now - last
  · exact ⟨fun _ => by simp [h1, hc], fun h => absurd hc h⟩
  · exact ⟨fun h => absurd h hc, fun _ => by simp [h1, hc]⟩

/-- Claim C7 witness: with min_rtt 1000 and last cycle start 0, a batch
at instant 5000 advances the cycle: offset, gain, last start and count
all update. -/
theorem bbr_c7_witness :
    BbrV2.update_cycle_phase c7s 5000 0 =
      { c7s with current_cycle_offset := (c7s.current_cycle_offset + 1) % 8,
                 last_cycle_start := some 5000,
                 pacing_gain := K_PACING_GAIN ((c7s.current_cycle_offset + 1) % 8),
                 cycle_count := c7s.cycle_count + 1 } :=
  (bbr_c7_cycle_advance c7s 5000 0 0 rfl rfl).1 (by decide)

/-- Claim C7 counterexample: in ProbeBw with last cycle start 0 and
min_rtt 1000, a batch at instant 1000 has an interval since the last
advance equal to min_rtt — at least min_rtt, as the claim requires for
an advance — yet the state is left completely unchanged: the code
advances only on a strictly greater interval. -/
theorem bbr_c7_cex :
    c7s.mode = Mode.ProbeBw ∧ c7s.last_cycle_start = some 0 ∧
    c7s.min_rtt ≤ 1000 - 0 ∧
    BbrV2.update_cycle_phase c7s 1000 0 = c7s :=
  ⟨rfl, rfl, by decide, rfl⟩

/-- Claim C8: on every on_end_acks call the pacing rate is left
unchanged when the bandwidth estimate is 0 and otherwise set to
max(bandwidth x pacing gain, 100 x current_mtu); hence it is at least
100 x current_mtu whenever the estimate is non-zero. -/
theorem bbr_c8_pacing_rate (s : BbrV2) (bw : Nat) :
    (s.update_pacing_rate bw).pacing_rate =
      (if bw = 0 then s.pacing_rate
       else max (ratToU64 ((bw : ℚ) * s.pacing_gain)) (s.current_mtu * 100)) ∧
    (0 < bw → s.current_mtu * 100 ≤ (s.update_pacing_rate bw).pacing_rate) := by
  unfold BbrV2.update_pacing_rate
  constructor
  · split <;> simp_all
  · intro h
    rw [if_neg (Nat.pos_iff_ne_zero.mp h)]
    exact le_max_right _ _

/-- Claim C9 (amended): min_rtt of a fresh controller is the numeric
sentinel 1000 microseconds (1 ms), not an explicit no-value state; the
BDP computation is skipped only when the bandwidth estimate is zero or
min_rtt is zero, so before any measurement the BDP is computed from the
1 ms placeholder as soon as the bandwidth estimate is positive. -/
theorem bbr_c9_min_rtt_sentinel :
    (∀ (cfg : BbrV2Config) (mtu : Nat) (rng : List Nat),
      (BbrV2.new cfg mtu rng).min_rtt = 1000 ∧
      (BbrV2.new cfg mtu rng).last_ack_time = none) ∧
    (∀ (s : BbrV2) (bw : Nat), bw = 0 ∨ s.min_rtt = 0 → (s.update_bdp bw).bdp = s.bdp) ∧
    (∀ (cfg : BbrV2Config) (mtu : Nat) (rng : List Nat) (bw : Nat), 0 < bw →
      (BbrV2.update_bdp (BbrV2.new cfg mtu rng) bw).bdp = bw * 1000 / 1000000 % 2 ^ 64) := by
  refine ⟨fun _ _ _ => ⟨rfl, rfl⟩, fun s bw h => ?_, fun cfg mtu rng bw h => ?_⟩
  · unfold BbrV2.update_bdp
    have hn : ¬(0 < bw ∧ s.min_rtt ≠ 0) := by rcases h with h | h <;> simp [h]
    rw [if_neg hn]
  · unfold BbrV2.update_bdp
    rw [if_pos ⟨h, Nat.succ_ne_zero 999⟩]
    rfl

/-- Claim C9 counterexample: before any RTT measurement (no ack was ever
recorded) the minimum-RTT field already holds the numeric value 1000
microseconds, and update_bdp with a positive bandwidth is not skipped:
it turns the prior bdp 0 into 2000, computed from the sentinel. -/
theorem bbr_c9_cex :
    (BbrV2.new ⟨6000⟩ 1500 []).last_ack_time = none ∧
    (BbrV2.new ⟨6000⟩ 1500 []).min_rtt = 1000 ∧
    (BbrV2.new ⟨6000⟩ 1500 []).bdp = 0 ∧
    (BbrV2.update_bdp (BbrV2.new ⟨6000⟩ 1500 []) 2000000).bdp = 2000 := by decide

/-- Claim C10: delivered bytes start at 0, are never reset by any public
operation (on_end_acks preserves them exactly and zeroes only the acked
and lost accumulators, the other operations never decrease them), and
the full-pipe check latches exactly when the lifetime delivered-bytes
total exceeds 80 percent of the current BDP. -/
theorem bbr_c10_delivered_monotone :
    (∀ (cfg : BbrV2Config) (mtu : Nat) (rng : List Nat),
      (BbrV2.new cfg mtu rng).delivered_bytes = 0) ∧
    (∀ (s : BbrV2) (now inflight : Nat) (al : Bool) (largest : Option Nat) (ba bw : Nat),
      (s.on_end_acks now inflight al largest ba bw).delivered_bytes = s.delivered_bytes ∧
      (s.on_end_acks now inflight al largest ba bw).acked_bytes = 0 ∧
      (s.on_end_acks now inflight al largest ba bw).lost_bytes = 0) ∧
    (∀ (s : BbrV2) (now bytes pn : Nat),
      s.delivered_bytes ≤ (s.on_sent now bytes pn).delivered_bytes) ∧
    (∀ (s : BbrV2) (now sent bytes : Nat) (al : Bool) (rtt_min : Nat),
      (s.on_ack now sent bytes al rtt_min).delivered_bytes = s.delivered_bytes + bytes) ∧
    (∀ (s : BbrV2) (now sent : Nat) (pc : Bool) (lost : Nat),
      s.delivered_bytes ≤ (s.on_congestion_event now sent pc lost).delivered_bytes) ∧
    (∀ (s : BbrV2) (m : Nat), s.delivered_bytes ≤ (s.on_mtu_update m).delivered_bytes) ∧
    (∀ s : BbrV2, s.check_full_pipe.full_pipe =
      (s.full_pipe || (decide (0 < s.bdp) &&
        decide (ratToU64 ((s.bdp : ℚ) * (4 / 5)) < s.delivered_bytes)))) := by
  refine ⟨fun _ _ _ => rfl, fun s now inflight al largest ba bw => ?_,
    fun s now bytes pn => le_refl _, fun s now sent bytes al rtt_min => ?_,
    fun s now sent pc lost => le_of_eq ?_, fun s m => le_refl _, fun s => ?_⟩
  · refine ⟨?_, ?_, ?_⟩
    · simp
    · unfold BbrV2.on_end_acks; rfl
    · unfold BbrV2.on_end_acks; rfl
  · simp
  · simp
  · unfold BbrV2.check_full_pipe
    split
    · simp_all
    · split
      · rename_i hnf hc
        simp_all
      · rename_i hnf hc
        push_neg at hc
        simp only [Bool.not_eq_true] at hnf
        simp [hnf]
        by_cases hb : 0 < s.bdp
        · simp [hb, hc hb]
        · simp [hb]
